import Mathlib

/-!
# apiserver/aggregator.go : bootstrap sequence of the API aggregator

A shallow embedding of `CreateAggregator` and `RunAggregator`.

Both functions are glue around the Kubernetes libraries.  The library calls
are not part of this repository, so they enter the embedding as the fields of
a record `Lib`: one field per library function the source calls, typed after
its Go signature.  A method with an error result returns `Option GoError`
(`none` is Go's `nil` error); a method that fills in the object it is given
(`Complete`, `MaybeDefaultWithSelfSignedCerts`, the `ApplyTo` methods on the
configuration) returns the updated object next to its error.

Values of library types whose inside the source never looks at are drawn from
a type parameter `X`.  The pointer fields the source dereferences without a
nil check (`RecommendedOptions`, `Etcd`, `SecureServing`, `Authentication`,
`Authorization`, `OpenAPIConfig.Info`) are plain structures: the library
allocates them.  `CoreAPI` and `Admission`, which the source sets to `nil`,
are `Option`s.

Every run returns, next to Go's result pair, the list of the library calls it
made, each with its arguments and the error it returned.

Two library bodies are modelled from the spec, each marked as such where it is
defined: `filters.BasicLongRunningRequestCheck`, and the copying of the bind
port and the storage server list by `RecommendedOptions.ApplyTo` into the
generic configuration.
-/

namespace apiserver

/-! ## Errors -/

/-- A Go `error` value: its message and, for a wrapping error, its cause. -/
inductive GoError where
  | leaf (msg : String)
  | wrap (msg : String) (cause : GoError)
  deriving DecidableEq, Repr

namespace GoError

/-- The `Error()` method. -/
def Error : GoError → String
  | leaf msg => msg
  | wrap msg _ => msg

/-- The result of `errors.Unwrap`. -/
def Unwrap : GoError → Option GoError
  | leaf _ => none
  | wrap _ cause => some cause

end GoError

namespace fmt

/-- The call `fmt.Errorf(pfx + "%w", err)`: the message is the prefix followed
by `err.Error()`, and the new error wraps `err`. -/
def Errorf (pfx : String) (err : GoError) : GoError :=
  GoError.wrap (pfx ++ err.Error) err

end fmt

/-! ## Time -/

namespace time

/-- A `time.Duration`, in nanoseconds. -/
abbrev Duration := Int

def Nanosecond : Duration := 1
def Microsecond : Duration := 1000 * Nanosecond
def Millisecond : Duration := 1000 * Microsecond
def Second : Duration := 1000 * Millisecond
def Minute : Duration := 60 * Second

end time

/-! ## Option objects -/

/-- The part of `storagebackend.TransportConfig` the source writes. -/
structure TransportConfig (X : Type) where
  ServerList : List String
  Other : X

structure StorageConfig (X : Type) where
  Transport : TransportConfig X
  Other : X

structure EtcdOptions (X : Type) where
  StorageConfig : StorageConfig X
  Other : X

structure SecureServingOptions (X : Type) where
  BindPort : Int
  Other : X

structure AuthenticationOptions (X : Type) where
  RemoteKubeConfigFileOptional : Bool
  Other : X

structure AuthorizationOptions (X : Type) where
  RemoteKubeConfigFileOptional : Bool
  AlwaysAllowPaths : List String
  AlwaysAllowGroups : List String
  Other : X

structure RecommendedOptions (X : Type) where
  Etcd : EtcdOptions X
  SecureServing : SecureServingOptions X
  Authentication : AuthenticationOptions X
  Authorization : AuthorizationOptions X
  CoreAPI : Option X
  Admission : Option X
  Other : X

structure AggregatorOptions (X : Type) where
  ServerRunOptions : X
  RecommendedOptions : RecommendedOptions X
  APIEnablement : X
  Other : X

/-! ## Requests and the long-running check -/

/-- The fields of `apirequest.RequestInfo` a long-running check reads. -/
structure RequestInfo where
  Verb : String
  Subresource : String
  deriving DecidableEq, Repr

namespace sets

/-- The call `sets.NewString(items...)`: the set of the given strings. -/
def NewString (items : List String) : Finset String := items.toFinset

end sets

namespace filters

/-- Modelled from the spec: the body of `filters.BasicLongRunningRequestCheck`
(package `k8s.io/apiserver/pkg/server/filters`) is missing; the source only
calls it.  The spec describes the predicate it returns by the two sets it is
given: the long-running verbs and the long-running subresources. -/
def BasicLongRunningRequestCheck (longRunningVerbs longRunningSubresources : Finset String)
    (requestInfo : RequestInfo) : Bool :=
  decide (requestInfo.Verb ∈ longRunningVerbs) ||
    decide (requestInfo.Subresource ∈ longRunningSubresources)

end filters

/-! ## Server configuration -/

structure Info (X : Type) where
  Title : String
  Other : X

structure OpenAPIConfig (X : Type) where
  Info : Info X
  Other : X

/-- The part of `genericapiserver.Config` the source writes, and the two
fields the spec reads in the generic configuration. -/
structure Config (X : Type) where
  LongRunningFunc : Option (RequestInfo → Bool)
  OpenAPIConfig : Option (OpenAPIConfig X)
  /-- Modelled from the spec: the bind port of the generic configuration; the
  library's declaration of it is missing. -/
  BindPort : Int
  /-- Modelled from the spec: the storage transport server list of the generic
  configuration; the library's declaration of it is missing. -/
  ServerList : List String
  Other : X

/-- The type `genericapiserver.RecommendedConfig`: it embeds `Config`. -/
structure RecommendedConfig (X : Type) where
  Config : Config X
  SharedInformerFactory : Option X
  Other : X

structure ExtraConfig (X : Type) where
  ServiceResolver : X

/-- The type `aggregatorapiserver.Config`. -/
structure AggregatorConfig (X : Type) where
  GenericConfig : RecommendedConfig X
  ExtraConfig : ExtraConfig X

/-! ## The library -/

/-- The library functions the source calls. -/
structure Lib (X : Type) where
  /-- The values `os.Stdout` and `os.Stderr`. -/
  Stdout : X
  Stderr : X
  /-- The call `aggregatorserver.NewDefaultOptions(out, errOut)` -/
  NewDefaultOptions : X → X → AggregatorOptions X
  /-- The call `o.Validate(args)` -/
  Validate : AggregatorOptions X → List String → Option GoError
  /-- The call `o.Complete()`: the options it leaves behind, and its error. -/
  Complete : AggregatorOptions X → AggregatorOptions X × Option GoError
  /-- The call `s.MaybeDefaultWithSelfSignedCerts(publicAddress, alternateDNS, alternateIPs)` -/
  MaybeDefaultWithSelfSignedCerts :
    SecureServingOptions X → String → List String → List X →
      SecureServingOptions X × Option GoError
  /-- The values `aggregatorscheme.Codecs` and `aggregatorscheme.Scheme`. -/
  Codecs : X
  Scheme : X
  /-- The call `genericapiserver.NewRecommendedConfig(codecs)` -/
  NewRecommendedConfig : X → RecommendedConfig X
  /-- The call `s.ApplyTo(c)` on `ServerRunOptions` -/
  ServerRunOptionsApplyTo : X → Config X → Config X × Option GoError
  /-- The call `o.ApplyTo(config)` on `RecommendedOptions`: its error, and the
  configuration it leaves behind, before the copying of `RecommendedOptions.ApplyTo`. -/
  RecommendedOptionsApplyTo :
    RecommendedOptions X → RecommendedConfig X → RecommendedConfig X × Option GoError
  /-- The call `aggregatorapiserver.DefaultAPIResourceConfigSource()` -/
  DefaultAPIResourceConfigSource : X
  /-- The call `s.ApplyTo(c, defaultResourceConfig, registry)` on `APIEnablementOptions` -/
  APIEnablementApplyTo : X → Config X → X → X → Config X × Option GoError
  /-- The call `clientgofake.NewSimpleClientset()` -/
  NewSimpleClientset : X
  /-- The call `clientgoinformers.NewSharedInformerFactory(client, defaultResync)` -/
  NewSharedInformerFactory : X → time.Duration → X
  /-- The function value `aggregatoropenapi.GetOpenAPIDefinitions`. -/
  GetOpenAPIDefinitions : X
  /-- The call `openapinamer.NewDefinitionNamer(scheme)` -/
  NewDefinitionNamer : X → X
  /-- The call `genericapiserver.DefaultOpenAPIConfig(getDefinitions, defNamer)` -/
  DefaultOpenAPIConfig : X → X → OpenAPIConfig X
  /-- The call `factory.Core().V1().Services().Lister()`; a nil factory has no lister. -/
  ServicesLister : Option X → X
  /-- The call `aggregatorapiserver.NewClusterIPServiceResolver(services)` -/
  NewClusterIPServiceResolver : X → X
  /-- The call `config.Complete()` on `aggregatorapiserver.Config` -/
  ConfigComplete : AggregatorConfig X → X
  /-- The call `completed.NewWithDelegate(delegationTarget)`: Go's result pair. -/
  NewWithDelegate : X → X → Option X × Option GoError
  /-- The call `server.PrepareRun()`: Go's result pair. -/
  PrepareRun : X → X × Option GoError
  /-- The call `prepared.Run(stopCh)` -/
  Run : X → X → Option GoError

/-! ## The record of a run -/

/-- The library calls a run can make, in the order of the source. -/
inductive Step where
  | Validate
  | Complete
  | MaybeDefaultWithSelfSignedCerts
  | NewRecommendedConfig
  | ServerRunOptionsApplyTo
  | RecommendedOptionsApplyTo
  | APIEnablementApplyTo
  | NewSharedInformerFactory
  | ConfigComplete
  | NewWithDelegate
  | PrepareRun
  | Run
  deriving DecidableEq, Repr

/-- A library call with its arguments.  A call on a part of the options `o`
records the whole of `o` as it is at that call. -/
inductive Call (X : Type) where
  /-- The call `o.Validate(args)` -/
  | Validate (o : AggregatorOptions X) (args : List String)
  /-- The call `o.Complete()` -/
  | Complete (o : AggregatorOptions X)
  /-- The call `o.RecommendedOptions.SecureServing.MaybeDefaultWithSelfSignedCerts(...)` -/
  | MaybeDefaultWithSelfSignedCerts (o : AggregatorOptions X) (publicAddress : String)
      (alternateDNS : List String) (alternateIPs : List X)
  /-- The call `genericapiserver.NewRecommendedConfig(codecs)` -/
  | NewRecommendedConfig (codecs : X)
  /-- The call `o.ServerRunOptions.ApplyTo(&serverConfig.Config)` -/
  | ServerRunOptionsApplyTo (o : AggregatorOptions X) (serverConfig : RecommendedConfig X)
  /-- The call `o.RecommendedOptions.ApplyTo(serverConfig)` -/
  | RecommendedOptionsApplyTo (o : AggregatorOptions X) (serverConfig : RecommendedConfig X)
  /-- The call `o.APIEnablement.ApplyTo(&serverConfig.Config, defaultResourceConfig, registry)` -/
  | APIEnablementApplyTo (o : AggregatorOptions X) (serverConfig : RecommendedConfig X)
      (defaultResourceConfig registry : X)
  /-- The call `clientgoinformers.NewSharedInformerFactory(client, defaultResync)` -/
  | NewSharedInformerFactory (client : X) (defaultResync : time.Duration)
  /-- The call `config.Complete()` -/
  | ConfigComplete (config : AggregatorConfig X)
  /-- The call `completed.NewWithDelegate(delegationTarget)` -/
  | NewWithDelegate (completed : X) (delegationTarget : X)
  /-- The call `server.PrepareRun()` -/
  | PrepareRun (server : X)
  /-- The call `prepared.Run(stopCh)` -/
  | Run (prepared : X) (stopCh : X)

namespace Call

/-- Which library function a call is to. -/
def step {X : Type} : Call X → Step
  | Validate _ _ => Step.Validate
  | Complete _ => Step.Complete
  | MaybeDefaultWithSelfSignedCerts _ _ _ _ => Step.MaybeDefaultWithSelfSignedCerts
  | NewRecommendedConfig _ => Step.NewRecommendedConfig
  | ServerRunOptionsApplyTo _ _ => Step.ServerRunOptionsApplyTo
  | RecommendedOptionsApplyTo _ _ => Step.RecommendedOptionsApplyTo
  | APIEnablementApplyTo _ _ _ _ => Step.APIEnablementApplyTo
  | NewSharedInformerFactory _ _ => Step.NewSharedInformerFactory
  | ConfigComplete _ => Step.ConfigComplete
  | NewWithDelegate _ _ => Step.NewWithDelegate
  | PrepareRun _ => Step.PrepareRun
  | Run _ _ => Step.Run

/-- The options a call is made on, for the calls made on the options. -/
def options {X : Type} : Call X → Option (AggregatorOptions X)
  | Validate o _ => some o
  | Complete o => some o
  | MaybeDefaultWithSelfSignedCerts o _ _ _ => some o
  | ServerRunOptionsApplyTo o _ => some o
  | RecommendedOptionsApplyTo o _ => some o
  | APIEnablementApplyTo o _ _ _ => some o
  | _ => none

end Call

/-- A library call and the error it returned (`none` for a nil error and for
a call without an error result). -/
structure Event (X : Type) where
  call : Call X
  err : Option GoError

/-- What a run of `CreateAggregator` gives: Go's result pair and the calls made. -/
structure Created (X : Type) where
  server : Option X
  err : Option GoError
  trace : List (Event X)

/-! ## RecommendedOptions.ApplyTo -/

/-- Modelled from the spec: the body of `RecommendedOptions.ApplyTo` (package
`k8s.io/apiserver/pkg/server/options`) is missing; the source only calls it.
By the spec's data model the bind port and the storage address list are
configuration fields copied from the option objects into the server
configuration.  Everything else the call does to the configuration, and the
error it returns, is the library's `lib.RecommendedOptionsApplyTo`. -/
def RecommendedOptions.ApplyTo {X : Type} (lib : Lib X) (o : RecommendedOptions X)
    (config : RecommendedConfig X) : RecommendedConfig X × Option GoError :=
  let applied := lib.RecommendedOptionsApplyTo o config
  let config := applied.1
  let config := { config with Config.BindPort := o.SecureServing.BindPort }
  let config := { config with
    Config.ServerList := o.Etcd.StorageConfig.Transport.ServerList }
  (config, applied.2)

/-! ## CreateAggregator -/

/-- Lines 43 to 50 of the source: the fields `CreateAggregator` overwrites in
the default options. -/
def overrideOptions {X : Type} (o : AggregatorOptions X) : AggregatorOptions X :=
  let o := { o with RecommendedOptions.Etcd.StorageConfig.Transport.ServerList :=
    ["http://127.0.0.1:2379"] }
  let o := { o with RecommendedOptions.SecureServing.BindPort := 6443 }
  let o := { o with RecommendedOptions.Authentication.RemoteKubeConfigFileOptional := true }
  let o := { o with RecommendedOptions.Authorization.RemoteKubeConfigFileOptional := true }
  let o := { o with RecommendedOptions.Authorization.AlwaysAllowPaths := ["*"] }
  let o := { o with RecommendedOptions.Authorization.AlwaysAllowGroups := ["*"] }
  let o := { o with RecommendedOptions.CoreAPI := none }
  let o := { o with RecommendedOptions.Admission := none }
  o

/-- The function `CreateAggregator` (lines 40 to 99 of the source). -/
def CreateAggregator {X : Type} (lib : Lib X) (delegationTarget : X) : Created X :=
  let o := lib.NewDefaultOptions lib.Stdout lib.Stderr
  let o := overrideOptions o
  let t := [Event.mk (Call.Validate o []) (lib.Validate o [])]
  match lib.Validate o [] with
  | some err => ⟨none, some err, t⟩
  | none =>
  let t := t ++ [Event.mk (Call.Complete o) (lib.Complete o).2]
  match (lib.Complete o).2 with
  | some err => ⟨none, some err, t⟩
  | none =>
  let o := (lib.Complete o).1
  let certs := lib.MaybeDefaultWithSelfSignedCerts o.RecommendedOptions.SecureServing
    "localhost" [] []
  let t := t ++ [Event.mk (Call.MaybeDefaultWithSelfSignedCerts o "localhost" [] []) certs.2]
  match certs.2 with
  | some err => ⟨none, some (fmt.Errorf "error creating self-signed certificates: " err), t⟩
  | none =>
  let o := { o with RecommendedOptions.SecureServing := certs.1 }
  let serverConfig := lib.NewRecommendedConfig lib.Codecs
  let t := t ++ [Event.mk (Call.NewRecommendedConfig lib.Codecs) none]
  let applied := lib.ServerRunOptionsApplyTo o.ServerRunOptions serverConfig.Config
  let t := t ++ [Event.mk (Call.ServerRunOptionsApplyTo o serverConfig) applied.2]
  match applied.2 with
  | some err => ⟨none, some err, t⟩
  | none =>
  let serverConfig := { serverConfig with Config := applied.1 }
  let applied := RecommendedOptions.ApplyTo lib o.RecommendedOptions serverConfig
  let t := t ++ [Event.mk (Call.RecommendedOptionsApplyTo o serverConfig) applied.2]
  match applied.2 with
  | some err => ⟨none, some err, t⟩
  | none =>
  let serverConfig := applied.1
  let applied := lib.APIEnablementApplyTo o.APIEnablement serverConfig.Config
    lib.DefaultAPIResourceConfigSource lib.Scheme
  let t := t ++ [Event.mk (Call.APIEnablementApplyTo o serverConfig
    lib.DefaultAPIResourceConfigSource lib.Scheme) applied.2]
  match applied.2 with
  | some err => ⟨none, some err, t⟩
  | none =>
  let serverConfig := { serverConfig with Config := applied.1 }
  let factory := lib.NewSharedInformerFactory lib.NewSimpleClientset (10 * time.Minute)
  let serverConfig := { serverConfig with SharedInformerFactory := some factory }
  let t := t ++ [Event.mk
    (Call.NewSharedInformerFactory lib.NewSimpleClientset (10 * time.Minute)) none]
  let check := filters.BasicLongRunningRequestCheck (sets.NewString ["watch"]) (sets.NewString [])
  let serverConfig := { serverConfig with Config.LongRunningFunc := some check }
  let openAPIConfig := lib.DefaultOpenAPIConfig lib.GetOpenAPIDefinitions
    (lib.NewDefinitionNamer lib.Scheme)
  let serverConfig := { serverConfig with Config.OpenAPIConfig := some openAPIConfig }
  let openAPIConfig := { openAPIConfig with Info.Title := "kube-aggregator" }
  let serverConfig := { serverConfig with Config.OpenAPIConfig := some openAPIConfig }
  let serviceResolver := lib.NewClusterIPServiceResolver
    (lib.ServicesLister serverConfig.SharedInformerFactory)
  let config : AggregatorConfig X :=
    { GenericConfig := serverConfig, ExtraConfig := { ServiceResolver := serviceResolver } }
  let t := t ++ [Event.mk (Call.ConfigComplete config) none]
  let built := lib.NewWithDelegate (lib.ConfigComplete config) delegationTarget
  let t := t ++ [Event.mk (Call.NewWithDelegate (lib.ConfigComplete config) delegationTarget)
    built.2]
  ⟨built.1, built.2, t⟩

/-! ## RunAggregator -/

/-- What a run of `RunAggregator` gives: the error returned and the calls made. -/
structure Ran (X : Type) where
  err : Option GoError
  trace : List (Event X)

/-- The function `RunAggregator` (lines 101 to 109 of the source). -/
def RunAggregator {X : Type} (lib : Lib X) (server : X) (stopCh : X) : Ran X :=
  let prepared := (lib.PrepareRun server).1
  let err := (lib.PrepareRun server).2
  let t := [Event.mk (Call.PrepareRun server) err]
  match err with
  | some err => ⟨some err, t⟩
  | none =>
  let ran := lib.Run prepared stopCh
  ⟨ran, t ++ [Event.mk (Call.Run prepared stopCh) ran]⟩

/-! ## Reading the record of a run -/

/-- The seven library calls of `CreateAggregator` that have an error result, in
the order of the source. -/
def fallibleSteps : List Step :=
  [Step.Validate, Step.Complete, Step.MaybeDefaultWithSelfSignedCerts,
    Step.ServerRunOptionsApplyTo, Step.RecommendedOptionsApplyTo,
    Step.APIEnablementApplyTo, Step.NewWithDelegate]

/-- The library functions called in a run, in order. -/
def stepsOf {X : Type} (t : List (Event X)) : List Step :=
  t.map fun ev => ev.call.step

/-- The calls of a run that have an error result. -/
def fallibleEvents {X : Type} (t : List (Event X)) : List (Event X) :=
  t.filter fun ev => decide (ev.call.step ∈ fallibleSteps)

/-- The error `CreateAggregator` returns for the error `e` of a failed step:
only the certificate step's error is wrapped. -/
def returnedError (s : Step) (e : GoError) : GoError :=
  if s = Step.MaybeDefaultWithSelfSignedCerts then
    fmt.Errorf "error creating self-signed certificates: " e
  else e

/-- Every one of the seven fallible calls was made and returned no error. -/
def allStepsSucceed {X : Type} (t : List (Event X)) : Prop :=
  stepsOf (fallibleEvents t) = fallibleSteps ∧ ∀ ev ∈ fallibleEvents t, ev.err = none

/-! ## A concrete library, for evaluating the definitions -/

/-- Default options in which every field `CreateAggregator` overwrites holds
another value. -/
def exampleOptions : AggregatorOptions Nat :=
  { ServerRunOptions := 1
    RecommendedOptions :=
      { Etcd := { StorageConfig := { Transport := { ServerList := ["https://etcd-0:2379"],
                                                    Other := 0 },
                                     Other := 0 },
                  Other := 0 }
        SecureServing := { BindPort := 443, Other := 0 }
        Authentication := { RemoteKubeConfigFileOptional := false, Other := 0 }
        Authorization := { RemoteKubeConfigFileOptional := false
                           AlwaysAllowPaths := ["/healthz"]
                           AlwaysAllowGroups := ["system:masters"]
                           Other := 0 }
        CoreAPI := some 7
        Admission := some 8
        Other := 0 }
    APIEnablement := 2
    Other := 0 }

/-- The error the example library returns from step `s` when `s` is the step
chosen to fail. -/
def exampleError (failing : Option Step) (s : Step) : Option GoError :=
  if failing = some s then some (GoError.leaf "injected failure") else none

/-- A library over `Nat` in which the step `failing`, if any, returns an error
and every other step succeeds.  `RecommendedOptions.ApplyTo` installs an
informer factory of its own. -/
def exampleLib (failing : Option Step) : Lib Nat :=
  { Stdout := 0
    Stderr := 0
    NewDefaultOptions := fun _ _ => exampleOptions
    Validate := fun _ _ => exampleError failing Step.Validate
    Complete := fun o => (o, exampleError failing Step.Complete)
    MaybeDefaultWithSelfSignedCerts := fun s _ _ _ =>
      ({ s with Other := 5 }, exampleError failing Step.MaybeDefaultWithSelfSignedCerts)
    Codecs := 3
    Scheme := 4
    NewRecommendedConfig := fun _ =>
      { Config := { LongRunningFunc := none, OpenAPIConfig := none, BindPort := 0,
                    ServerList := [], Other := 0 }
        SharedInformerFactory := none
        Other := 0 }
    ServerRunOptionsApplyTo := fun _ c =>
      ({ c with Other := 1 }, exampleError failing Step.ServerRunOptionsApplyTo)
    RecommendedOptionsApplyTo := fun _ c =>
      ({ c with SharedInformerFactory := some 99 },
        exampleError failing Step.RecommendedOptionsApplyTo)
    DefaultAPIResourceConfigSource := 6
    APIEnablementApplyTo := fun _ c _ _ =>
      ({ c with Other := 2 }, exampleError failing Step.APIEnablementApplyTo)
    NewSimpleClientset := 10
    NewSharedInformerFactory := fun client _ => client + 1
    GetOpenAPIDefinitions := 12
    NewDefinitionNamer := fun scheme => scheme + 1
    DefaultOpenAPIConfig := fun _ _ => { Info := { Title := "Generic API Server", Other := 0 },
                                         Other := 0 }
    ServicesLister := fun factory => factory.getD 0 + 100
    NewClusterIPServiceResolver := fun services => services + 1000
    ConfigComplete := fun _ => 20
    NewWithDelegate := fun _ delegationTarget =>
      match exampleError failing Step.NewWithDelegate with
      | some err => (none, some err)
      | none => (some (delegationTarget + 1), none)
    PrepareRun := fun server => (server + 1, exampleError failing Step.PrepareRun)
    Run := fun _ _ => exampleError failing Step.Run }

/-- The example library with a constructor that returns a server together
with an error. -/
def serverWithErrorLib : Lib Nat :=
  { exampleLib none with
    NewWithDelegate := fun _ delegationTarget =>
      (some (delegationTarget + 1), some (GoError.leaf "constructor failed")) }

/-- The example library with a constructor that returns neither a server nor
an error. -/
def neitherLib : Lib Nat :=
  { exampleLib none with NewWithDelegate := fun _ _ => (none, none) }

/-- The configuration a run with `exampleLib none` hands to the constructor. -/
def exampleConfig : AggregatorConfig Nat :=
  { GenericConfig :=
      { Config :=
          { LongRunningFunc := some (filters.BasicLongRunningRequestCheck
              (sets.NewString ["watch"]) (sets.NewString []))
            OpenAPIConfig := some { Info := { Title := "kube-aggregator", Other := 0 },
                                    Other := 0 }
            BindPort := 6443
            ServerList := ["http://127.0.0.1:2379"]
            Other := 2 }
        SharedInformerFactory := some 11
        Other := 0 }
    ExtraConfig := { ServiceResolver := 1111 } }

/-! ## Validation failure -/

/-- C1: if `o.Validate(nil)` returns an error `e` on the overridden default
options, `CreateAggregator` returns a nil server and `e` itself, and `Validate`
is the only library call of the run: no later step is invoked. -/
theorem CreateAggregator_validate_error {X : Type} (lib : Lib X) (delegationTarget : X)
    (e : GoError)
    (h : lib.Validate (overrideOptions (lib.NewDefaultOptions lib.Stdout lib.Stderr)) [] = some e) :
    (CreateAggregator lib delegationTarget).server = none ∧
    (CreateAggregator lib delegationTarget).err = some e ∧
    stepsOf (CreateAggregator lib delegationTarget).trace = [Step.Validate] := by
  simp [CreateAggregator, h, Call.step, stepsOf]

theorem CreateAggregator_validate_error_witness :
    (exampleLib (some Step.Validate)).Validate
        (overrideOptions ((exampleLib (some Step.Validate)).NewDefaultOptions 0 0)) [] =
      some (GoError.leaf "injected failure") ∧
    (CreateAggregator (exampleLib (some Step.Validate)) 5).server = none ∧
    (CreateAggregator (exampleLib (some Step.Validate)) 5).err =
      some (GoError.leaf "injected failure") ∧
    stepsOf (CreateAggregator (exampleLib (some Step.Validate)) 5).trace = [Step.Validate] :=
  ⟨by decide, CreateAggregator_validate_error (exampleLib (some Step.Validate)) 5
    (GoError.leaf "injected failure") (by decide)⟩

/-! ## Certificate failure -/

/-- C2: if `Validate` and `Complete` succeed and
`MaybeDefaultWithSelfSignedCerts("localhost", nil, nil)` returns an error `e`,
`CreateAggregator` returns a nil server and an error whose message is
"error creating self-signed certificates: " followed by the message of `e` and
whose wrapped cause is `e`; the run makes exactly the calls `Validate`,
`Complete`, `MaybeDefaultWithSelfSignedCerts`, so no server configuration is
built and no later step runs. -/
theorem CreateAggregator_certificate_error {X : Type} (lib : Lib X) (delegationTarget : X)
    (e : GoError)
    (hValidate :
      lib.Validate (overrideOptions (lib.NewDefaultOptions lib.Stdout lib.Stderr)) [] = none)
    (hComplete :
      (lib.Complete (overrideOptions (lib.NewDefaultOptions lib.Stdout lib.Stderr))).2 = none)
    (hCerts :
      (lib.MaybeDefaultWithSelfSignedCerts
        (lib.Complete (overrideOptions
          (lib.NewDefaultOptions lib.Stdout lib.Stderr))).1.RecommendedOptions.SecureServing
        "localhost" [] []).2 = some e) :
    (CreateAggregator lib delegationTarget).server = none ∧
    (∃ e', (CreateAggregator lib delegationTarget).err = some e' ∧
      e'.Error = "error creating self-signed certificates: " ++ e.Error ∧
      e'.Unwrap = some e) ∧
    stepsOf (CreateAggregator lib delegationTarget).trace =
      [Step.Validate, Step.Complete, Step.MaybeDefaultWithSelfSignedCerts] := by
  simp [CreateAggregator, hValidate, hComplete, hCerts, Call.step, stepsOf, fmt.Errorf,
    GoError.Error, GoError.Unwrap]

theorem CreateAggregator_certificate_error_witness :
    (CreateAggregator (exampleLib (some Step.MaybeDefaultWithSelfSignedCerts)) 5).server = none ∧
    (∃ e', (CreateAggregator (exampleLib (some Step.MaybeDefaultWithSelfSignedCerts)) 5).err =
        some e' ∧
      e'.Error = "error creating self-signed certificates: " ++
        (GoError.leaf "injected failure").Error ∧
      e'.Unwrap = some (GoError.leaf "injected failure")) ∧
    stepsOf (CreateAggregator (exampleLib (some Step.MaybeDefaultWithSelfSignedCerts)) 5).trace =
      [Step.Validate, Step.Complete, Step.MaybeDefaultWithSelfSignedCerts] :=
  CreateAggregator_certificate_error (exampleLib (some Step.MaybeDefaultWithSelfSignedCerts)) 5
    (GoError.leaf "injected failure") (by decide) (by decide) (by decide)

/-! ## Order of the steps and the first failure -/

/-- The fallible calls of a run are the first `n` of the seven, in order. -/
theorem fallible_steps_take {X : Type} (lib : Lib X) (delegationTarget : X) :
    ∃ n, 1 ≤ n ∧ stepsOf (fallibleEvents (CreateAggregator lib delegationTarget).trace) =
      fallibleSteps.take n := by
  unfold CreateAggregator
  simp only []
  repeat' split
  all_goals first
    | exact ⟨1, by decide, rfl⟩
    | exact ⟨2, by decide, rfl⟩
    | exact ⟨3, by decide, rfl⟩
    | exact ⟨4, by decide, rfl⟩
    | exact ⟨5, by decide, rfl⟩
    | exact ⟨6, by decide, rfl⟩
    | exact ⟨7, by decide, rfl⟩

/-- A run in which no fallible call returns an error makes all seven. -/
theorem fallible_steps_all {X : Type} (lib : Lib X) (delegationTarget : X) :
    (∀ ev ∈ fallibleEvents (CreateAggregator lib delegationTarget).trace, ev.err = none) →
      stepsOf (fallibleEvents (CreateAggregator lib delegationTarget).trace) = fallibleSteps := by
  unfold CreateAggregator
  simp only []
  repeat' split
  all_goals
    intro h
    simp [fallibleEvents, fallibleSteps, stepsOf, Call.step] at h ⊢
  all_goals simp_all

/-- A fallible call that returns an error is the last call of the run, every
call before it succeeded, and its error is the one returned. -/
theorem fallible_steps_first_error {X : Type} (lib : Lib X) (delegationTarget : X)
    (k : Nat) (ev : Event X) (e : GoError)
    (hk : (fallibleEvents (CreateAggregator lib delegationTarget).trace)[k]? = some ev)
    (he : ev.err = some e) :
    stepsOf (fallibleEvents (CreateAggregator lib delegationTarget).trace) =
      fallibleSteps.take (k + 1) ∧
    (∀ (j : Nat) (ev' : Event X), j < k →
      (fallibleEvents (CreateAggregator lib delegationTarget).trace)[j]? = some ev' →
      ev'.err = none) ∧
    (CreateAggregator lib delegationTarget).err = some (returnedError ev.call.step e) := by
  revert k ev e
  unfold CreateAggregator
  simp only []
  repeat' split
  all_goals
    intro k ev e hk he
    simp [fallibleEvents, fallibleSteps, stepsOf, Call.step] at hk ⊢
    rcases k with _|_|_|_|_|_|_|k <;> simp at hk <;> (try subst hk) <;>
      simp_all [returnedError, Call.step]
  all_goals
    intro j ev' hj hev'
    interval_cases j <;> simp at hev' <;> subst hev' <;> rfl

/-- A wrapping error is not its own cause. -/
theorem GoError.wrap_ne (e : GoError) : ∀ msg, GoError.wrap msg e ≠ e := by
  induction e with
  | leaf m => intro msg h; cases h
  | wrap m c ih =>
    intro msg h
    injection h with _ h2
    exact ih m h2

/-- Only the certificate step's error is changed on the way out. -/
theorem returnedError_eq_iff (s : Step) (e : GoError) :
    returnedError s e = e ↔ s ≠ Step.MaybeDefaultWithSelfSignedCerts := by
  unfold returnedError
  by_cases hs : s = Step.MaybeDefaultWithSelfSignedCerts
  · simp [hs, fmt.Errorf, GoError.wrap_ne]
  · simp [hs]

/-- C3: the fallible calls of every run of `CreateAggregator` are an initial
segment of Validate, Complete, MaybeDefaultWithSelfSignedCerts,
ServerRunOptions.ApplyTo, RecommendedOptions.ApplyTo, APIEnablement.ApplyTo,
NewWithDelegate, each made once and in this order; a run without a failing
call makes all seven; and if the call at position `k` returns an error `e`,
the calls made are exactly those up to position `k`, every earlier call
returned no error, and the error returned is `e` itself, except for the
certificate step, whose error is returned wrapped. -/
theorem CreateAggregator_fail_fast {X : Type} (lib : Lib X) (delegationTarget : X) :
    (∃ n, 1 ≤ n ∧ stepsOf (fallibleEvents (CreateAggregator lib delegationTarget).trace) =
      fallibleSteps.take n) ∧
    ((∀ ev ∈ fallibleEvents (CreateAggregator lib delegationTarget).trace, ev.err = none) →
      stepsOf (fallibleEvents (CreateAggregator lib delegationTarget).trace) = fallibleSteps) ∧
    (∀ (k : Nat) (ev : Event X) (e : GoError),
      (fallibleEvents (CreateAggregator lib delegationTarget).trace)[k]? = some ev →
      ev.err = some e →
        stepsOf (fallibleEvents (CreateAggregator lib delegationTarget).trace) =
          fallibleSteps.take (k + 1) ∧
        (∀ (j : Nat) (ev' : Event X), j < k →
          (fallibleEvents (CreateAggregator lib delegationTarget).trace)[j]? = some ev' →
          ev'.err = none) ∧
        (CreateAggregator lib delegationTarget).err = some (returnedError ev.call.step e)) ∧
    (∀ (s : Step) (e : GoError),
      (returnedError s e = e ↔ s ≠ Step.MaybeDefaultWithSelfSignedCerts) ∧
      (s = Step.MaybeDefaultWithSelfSignedCerts → (returnedError s e).Unwrap = some e)) :=
  ⟨fallible_steps_take lib delegationTarget, fallible_steps_all lib delegationTarget,
    fun k ev e hk he => fallible_steps_first_error lib delegationTarget k ev e hk he,
    fun s e => ⟨returnedError_eq_iff s e, fun hs => by
      simp [returnedError, hs, fmt.Errorf, GoError.Unwrap]⟩⟩

/-! ## The result pair -/

/-- C4 as amended: `CreateAggregator` returns a nil error if and only if all
seven fallible steps were made and succeeded.  A run that does not reach
`NewWithDelegate` returns a nil server and a non-nil error.  A run that reaches
it returns, unchanged, the pair `NewWithDelegate` returned for the completed
configuration and the caller's delegation target. -/
theorem CreateAggregator_result_pair {X : Type} (lib : Lib X) (delegationTarget : X) :
    ((CreateAggregator lib delegationTarget).err = none ↔
      allStepsSucceed (CreateAggregator lib delegationTarget).trace) ∧
    (Step.NewWithDelegate ∉ stepsOf (CreateAggregator lib delegationTarget).trace →
      (CreateAggregator lib delegationTarget).server = none ∧
      (CreateAggregator lib delegationTarget).err ≠ none) ∧
    (Step.NewWithDelegate ∈ stepsOf (CreateAggregator lib delegationTarget).trace →
      ∃ config,
        Event.mk (Call.ConfigComplete config) none ∈
          (CreateAggregator lib delegationTarget).trace ∧
        Event.mk (Call.NewWithDelegate (lib.ConfigComplete config) delegationTarget)
            (lib.NewWithDelegate (lib.ConfigComplete config) delegationTarget).2 ∈
          (CreateAggregator lib delegationTarget).trace ∧
        (CreateAggregator lib delegationTarget).server =
          (lib.NewWithDelegate (lib.ConfigComplete config) delegationTarget).1 ∧
        (CreateAggregator lib delegationTarget).err =
          (lib.NewWithDelegate (lib.ConfigComplete config) delegationTarget).2) := by
  unfold CreateAggregator
  simp only []
  repeat' split
  all_goals simp [allStepsSucceed, fallibleEvents, fallibleSteps, stepsOf, Call.step, *]

/-- C4 as stated fails where the constructor does not follow the convention:
with a constructor that returns a server together with an error, the run has a
failed step and still returns a non-nil server; with a constructor that
returns neither, all seven steps succeed and the server is nil. -/
theorem CreateAggregator_server_iff_counterexample :
    (¬ allStepsSucceed (CreateAggregator serverWithErrorLib 5).trace ∧
      (CreateAggregator serverWithErrorLib 5).server = some 6 ∧
      (CreateAggregator serverWithErrorLib 5).err =
        some (GoError.leaf "constructor failed")) ∧
    (allStepsSucceed (CreateAggregator neitherLib 5).trace ∧
      (CreateAggregator neitherLib 5).server = none ∧
      (CreateAggregator neitherLib 5).err = none) := by
  simp [allStepsSucceed, CreateAggregator, RecommendedOptions.ApplyTo, serverWithErrorLib,
    neitherLib, exampleLib, exampleError, fallibleEvents, fallibleSteps, stepsOf, Call.step]

/-! ## The overridden option fields at every call -/

/-- C5: when `Complete`, `MaybeDefaultWithSelfSignedCerts` and
`APIEnablement.ApplyTo` leave the two fields as they find them, every call
`CreateAggregator` makes on the options (Validate, Complete, the certificate
step, the three ApplyTo) sees `SecureServing.BindPort = 6443` and the etcd
transport server list `["http://127.0.0.1:2379"]`, whatever the defaults held;
and a run in which every step succeeds returns a nil error and the server the
constructor built from a configuration whose generic configuration has bind
port 6443 and server list `["http://127.0.0.1:2379"]`. -/
theorem CreateAggregator_endpoint_overrides {X : Type} (lib : Lib X) (delegationTarget : X)
    (hComplete : ∀ o,
      (lib.Complete o).1.RecommendedOptions.SecureServing.BindPort =
        o.RecommendedOptions.SecureServing.BindPort ∧
      (lib.Complete o).1.RecommendedOptions.Etcd.StorageConfig.Transport.ServerList =
        o.RecommendedOptions.Etcd.StorageConfig.Transport.ServerList)
    (hCerts : ∀ s publicAddress alternateDNS alternateIPs,
      (lib.MaybeDefaultWithSelfSignedCerts s publicAddress alternateDNS alternateIPs).1.BindPort =
        s.BindPort)
    (hEnablement : ∀ s c defaultResourceConfig registry,
      (lib.APIEnablementApplyTo s c defaultResourceConfig registry).1.BindPort = c.BindPort ∧
      (lib.APIEnablementApplyTo s c defaultResourceConfig registry).1.ServerList =
        c.ServerList) :
    (∀ ev ∈ (CreateAggregator lib delegationTarget).trace, ∀ o, ev.call.options = some o →
      o.RecommendedOptions.SecureServing.BindPort = 6443 ∧
      o.RecommendedOptions.Etcd.StorageConfig.Transport.ServerList =
        ["http://127.0.0.1:2379"]) ∧
    (allStepsSucceed (CreateAggregator lib delegationTarget).trace →
      (CreateAggregator lib delegationTarget).err = none ∧
      ∃ config,
        Event.mk (Call.ConfigComplete config) none ∈
          (CreateAggregator lib delegationTarget).trace ∧
        Event.mk (Call.NewWithDelegate (lib.ConfigComplete config) delegationTarget) none ∈
          (CreateAggregator lib delegationTarget).trace ∧
        (CreateAggregator lib delegationTarget).server =
          (lib.NewWithDelegate (lib.ConfigComplete config) delegationTarget).1 ∧
        config.GenericConfig.Config.BindPort = 6443 ∧
        config.GenericConfig.Config.ServerList = ["http://127.0.0.1:2379"]) := by
  unfold CreateAggregator
  simp only []
  repeat' split
  all_goals simp [allStepsSucceed, fallibleEvents, fallibleSteps, stepsOf, Call.step,
    Call.options, overrideOptions, RecommendedOptions.ApplyTo, hComplete, hCerts,
    hEnablement, *]
  intro _ _ _ _ _ _ h
  exact ⟨h, h.symm⟩


/-- C6: after the override step `AlwaysAllowPaths` and `AlwaysAllowGroups` are
both exactly `["*"]`, whatever the defaults held, and, when `Complete` leaves
the two fields as it finds them, every call `CreateAggregator` makes on the
options sees that value. -/
theorem CreateAggregator_authorization_overrides {X : Type} (lib : Lib X)
    (delegationTarget : X)
    (hComplete : ∀ o,
      (lib.Complete o).1.RecommendedOptions.Authorization.AlwaysAllowPaths =
        o.RecommendedOptions.Authorization.AlwaysAllowPaths ∧
      (lib.Complete o).1.RecommendedOptions.Authorization.AlwaysAllowGroups =
        o.RecommendedOptions.Authorization.AlwaysAllowGroups) :
    ((overrideOptions (lib.NewDefaultOptions lib.Stdout
        lib.Stderr)).RecommendedOptions.Authorization.AlwaysAllowPaths = ["*"] ∧
      (overrideOptions (lib.NewDefaultOptions lib.Stdout
        lib.Stderr)).RecommendedOptions.Authorization.AlwaysAllowGroups = ["*"]) ∧
    (∀ ev ∈ (CreateAggregator lib delegationTarget).trace, ∀ o, ev.call.options = some o →
      o.RecommendedOptions.Authorization.AlwaysAllowPaths = ["*"] ∧
      o.RecommendedOptions.Authorization.AlwaysAllowGroups = ["*"]) := by
  refine ⟨⟨rfl, rfl⟩, ?_⟩
  unfold CreateAggregator
  simp only []
  repeat' split
  all_goals simp [Call.options, overrideOptions, hComplete, *]

/-- C7: when `Complete` leaves `CoreAPI` and `Admission` as it finds them,
every call `CreateAggregator` makes on the options (Validate, Complete, the
certificate step, the three ApplyTo) sees `CoreAPI = nil` and
`Admission = nil`, whatever the defaults held. -/
theorem CreateAggregator_disabled_groups {X : Type} (lib : Lib X) (delegationTarget : X)
    (hComplete : ∀ o,
      (lib.Complete o).1.RecommendedOptions.CoreAPI = o.RecommendedOptions.CoreAPI ∧
      (lib.Complete o).1.RecommendedOptions.Admission = o.RecommendedOptions.Admission) :
    ∀ ev ∈ (CreateAggregator lib delegationTarget).trace, ∀ o, ev.call.options = some o →
      o.RecommendedOptions.CoreAPI = none ∧ o.RecommendedOptions.Admission = none := by
  unfold CreateAggregator
  simp only []
  repeat' split
  all_goals simp [Call.options, overrideOptions, hComplete, *]

/-! ## The long-running check -/

/-- The check for the verb set {"watch"} and no subresources holds of a
request exactly when its verb is "watch". -/
theorem BasicLongRunningRequestCheck_watch (requestInfo : RequestInfo) :
    filters.BasicLongRunningRequestCheck (sets.NewString ["watch"]) (sets.NewString [])
      requestInfo = true ↔ requestInfo.Verb = "watch" := by
  simp [filters.BasicLongRunningRequestCheck, sets.NewString]

/-- C8: the configuration `CreateAggregator` completes and hands to the
constructor has as `LongRunningFunc` the check
`BasicLongRunningRequestCheck(sets.NewString("watch"), sets.NewString())`,
which holds of a request if and only if its verb is "watch", whatever its
subresource. -/
theorem CreateAggregator_long_running {X : Type} (lib : Lib X) (delegationTarget : X)
    (ev : Event X) (hev : ev ∈ (CreateAggregator lib delegationTarget).trace)
    (config : AggregatorConfig X) (hcall : ev.call = Call.ConfigComplete config) :
    ∃ check, config.GenericConfig.Config.LongRunningFunc = some check ∧
      check = filters.BasicLongRunningRequestCheck (sets.NewString ["watch"])
        (sets.NewString []) ∧
      ∀ requestInfo, (check requestInfo = true ↔ requestInfo.Verb = "watch") := by
  revert ev
  unfold CreateAggregator
  simp only []
  repeat' split
  all_goals simp [BasicLongRunningRequestCheck_watch]
  intro h
  subst h
  exact ⟨_, rfl, rfl, BasicLongRunningRequestCheck_watch⟩

/-! ## RunAggregator -/

/-- C9: `RunAggregator` calls `PrepareRun` once; if it returns an error `e`,
the result is `e` and `Run` is not called; otherwise `Run` is called once, on
the prepared server and the caller's stop channel, and its result is returned
as it is. -/
theorem RunAggregator_delegates {X : Type} (lib : Lib X) (server stopCh : X) :
    (∀ e, (lib.PrepareRun server).2 = some e →
      RunAggregator lib server stopCh = ⟨some e, [⟨Call.PrepareRun server, some e⟩]⟩) ∧
    ((lib.PrepareRun server).2 = none →
      RunAggregator lib server stopCh =
        ⟨lib.Run (lib.PrepareRun server).1 stopCh,
          [⟨Call.PrepareRun server, none⟩,
            ⟨Call.Run (lib.PrepareRun server).1 stopCh,
              lib.Run (lib.PrepareRun server).1 stopCh⟩]⟩) := by
  constructor
  · intro e h
    simp [RunAggregator, h]
  · intro h
    simp [RunAggregator, h]

/-! ## The informer factory and the service resolver -/

/-- C10: in a run that reaches `NewWithDelegate`, the constructor is called on
the caller's delegation target and on the completion of a configuration whose
`SharedInformerFactory` is the factory built from the fake clientset with a
resync period of 10 minutes (600000000000 ns), whatever the ApplyTo steps
installed, and whose `ServiceResolver` is the cluster-IP resolver of the
services lister of that same factory. -/
theorem CreateAggregator_informer_factory {X : Type} (lib : Lib X) (delegationTarget : X)
    (ev : Event X) (hev : ev ∈ (CreateAggregator lib delegationTarget).trace)
    (completed target : X) (hcall : ev.call = Call.NewWithDelegate completed target) :
    ∃ config,
      Event.mk (Call.ConfigComplete config) none ∈
        (CreateAggregator lib delegationTarget).trace ∧
      completed = lib.ConfigComplete config ∧ target = delegationTarget ∧
      config.GenericConfig.SharedInformerFactory =
        some (lib.NewSharedInformerFactory lib.NewSimpleClientset (10 * time.Minute)) ∧
      10 * time.Minute = 600000000000 ∧
      config.ExtraConfig.ServiceResolver =
        lib.NewClusterIPServiceResolver
          (lib.ServicesLister config.GenericConfig.SharedInformerFactory) := by
  revert ev
  unfold CreateAggregator
  simp only []
  repeat' split
  all_goals simp
  intro h1 h2
  subst h1 h2
  exact ⟨rfl, rfl, by decide⟩


/-! ## The theorems with hypotheses, at the example library -/

theorem CreateAggregator_endpoint_overrides_witness :
    (∀ o,
      ((exampleLib none).Complete o).1.RecommendedOptions.SecureServing.BindPort =
        o.RecommendedOptions.SecureServing.BindPort ∧
      ((exampleLib none).Complete o).1.RecommendedOptions.Etcd.StorageConfig.Transport.ServerList =
        o.RecommendedOptions.Etcd.StorageConfig.Transport.ServerList) ∧
    (∀ s publicAddress alternateDNS alternateIPs,
      ((exampleLib none).MaybeDefaultWithSelfSignedCerts s publicAddress alternateDNS
        alternateIPs).1.BindPort = s.BindPort) ∧
    (∀ s c defaultResourceConfig registry,
      ((exampleLib none).APIEnablementApplyTo s c defaultResourceConfig registry).1.BindPort =
        c.BindPort ∧
      ((exampleLib none).APIEnablementApplyTo s c defaultResourceConfig registry).1.ServerList =
        c.ServerList) ∧
    ((exampleLib none).NewDefaultOptions 0 0).RecommendedOptions.SecureServing.BindPort = 443 ∧
    allStepsSucceed (CreateAggregator (exampleLib none) 5).trace ∧
    (∀ ev ∈ (CreateAggregator (exampleLib none) 5).trace, ∀ o, ev.call.options = some o →
      o.RecommendedOptions.SecureServing.BindPort = 6443 ∧
      o.RecommendedOptions.Etcd.StorageConfig.Transport.ServerList =
        ["http://127.0.0.1:2379"]) ∧
    (allStepsSucceed (CreateAggregator (exampleLib none) 5).trace →
      (CreateAggregator (exampleLib none) 5).err = none ∧
      ∃ config,
        Event.mk (Call.ConfigComplete config) none ∈
          (CreateAggregator (exampleLib none) 5).trace ∧
        Event.mk (Call.NewWithDelegate ((exampleLib none).ConfigComplete config) 5) none ∈
          (CreateAggregator (exampleLib none) 5).trace ∧
        (CreateAggregator (exampleLib none) 5).server =
          ((exampleLib none).NewWithDelegate ((exampleLib none).ConfigComplete config) 5).1 ∧
        config.GenericConfig.Config.BindPort = 6443 ∧
        config.GenericConfig.Config.ServerList = ["http://127.0.0.1:2379"]) :=
  ⟨fun _ => ⟨rfl, rfl⟩, fun _ _ _ _ => rfl, fun _ _ _ _ => ⟨rfl, rfl⟩, rfl,
    by simp [allStepsSucceed, CreateAggregator, RecommendedOptions.ApplyTo, exampleLib,
      exampleError, fallibleEvents, fallibleSteps, stepsOf, Call.step],
    CreateAggregator_endpoint_overrides (exampleLib none) 5 (fun _ => ⟨rfl, rfl⟩)
      (fun _ _ _ _ => rfl) (fun _ _ _ _ => ⟨rfl, rfl⟩)⟩

theorem CreateAggregator_authorization_overrides_witness :
    (∀ o,
      ((exampleLib none).Complete o).1.RecommendedOptions.Authorization.AlwaysAllowPaths =
        o.RecommendedOptions.Authorization.AlwaysAllowPaths ∧
      ((exampleLib none).Complete o).1.RecommendedOptions.Authorization.AlwaysAllowGroups =
        o.RecommendedOptions.Authorization.AlwaysAllowGroups) ∧
    ((exampleLib none).NewDefaultOptions 0 0).RecommendedOptions.Authorization.AlwaysAllowPaths =
      ["/healthz"] ∧
    ((overrideOptions ((exampleLib none).NewDefaultOptions (exampleLib none).Stdout
        (exampleLib none).Stderr)).RecommendedOptions.Authorization.AlwaysAllowPaths = ["*"] ∧
      (overrideOptions ((exampleLib none).NewDefaultOptions (exampleLib none).Stdout
        (exampleLib none).Stderr)).RecommendedOptions.Authorization.AlwaysAllowGroups =
          ["*"]) ∧
    (∀ ev ∈ (CreateAggregator (exampleLib none) 5).trace, ∀ o, ev.call.options = some o →
      o.RecommendedOptions.Authorization.AlwaysAllowPaths = ["*"] ∧
      o.RecommendedOptions.Authorization.AlwaysAllowGroups = ["*"]) :=
  ⟨fun _ => ⟨rfl, rfl⟩, rfl,
    CreateAggregator_authorization_overrides (exampleLib none) 5 (fun _ => ⟨rfl, rfl⟩)⟩

theorem CreateAggregator_disabled_groups_witness :
    (∀ o,
      ((exampleLib none).Complete o).1.RecommendedOptions.CoreAPI =
        o.RecommendedOptions.CoreAPI ∧
      ((exampleLib none).Complete o).1.RecommendedOptions.Admission =
        o.RecommendedOptions.Admission) ∧
    ((exampleLib none).NewDefaultOptions 0 0).RecommendedOptions.CoreAPI = some 7 ∧
    ((exampleLib none).NewDefaultOptions 0 0).RecommendedOptions.Admission = some 8 ∧
    (Call.RecommendedOptionsApplyTo
        (overrideOptions { exampleOptions with RecommendedOptions.SecureServing.Other := 5 })
        { Config := { LongRunningFunc := none, OpenAPIConfig := none, BindPort := 0,
                      ServerList := [], Other := 1 }
          SharedInformerFactory := none
          Other := 0 }).options =
      some (overrideOptions { exampleOptions with RecommendedOptions.SecureServing.Other := 5 }) ∧
    (overrideOptions { exampleOptions with
      RecommendedOptions.SecureServing.Other := 5 }).RecommendedOptions.CoreAPI = none ∧
    (overrideOptions { exampleOptions with
      RecommendedOptions.SecureServing.Other := 5 }).RecommendedOptions.Admission = none :=
  ⟨fun _ => ⟨rfl, rfl⟩, rfl, rfl, rfl,
    CreateAggregator_disabled_groups (exampleLib none) 5 (fun _ => ⟨rfl, rfl⟩)
      (Event.mk (Call.RecommendedOptionsApplyTo
        (overrideOptions { exampleOptions with RecommendedOptions.SecureServing.Other := 5 })
        { Config := { LongRunningFunc := none, OpenAPIConfig := none, BindPort := 0,
                      ServerList := [], Other := 1 }
          SharedInformerFactory := none
          Other := 0 }) none)
      (by simp [CreateAggregator, RecommendedOptions.ApplyTo, exampleLib, exampleError,
        exampleOptions, overrideOptions])
      _ rfl⟩

/-- The run with `exampleLib none` completes `exampleConfig`. -/
theorem exampleConfig_mem :
    Event.mk (Call.ConfigComplete exampleConfig) none ∈
      (CreateAggregator (exampleLib none) 5).trace := by
  simp [CreateAggregator, RecommendedOptions.ApplyTo, exampleLib, exampleError, exampleConfig,
    exampleOptions, overrideOptions]

theorem CreateAggregator_long_running_witness :
    Event.mk (Call.ConfigComplete exampleConfig) none ∈
      (CreateAggregator (exampleLib none) 5).trace ∧
    ∃ check, exampleConfig.GenericConfig.Config.LongRunningFunc = some check ∧
      check = filters.BasicLongRunningRequestCheck (sets.NewString ["watch"])
        (sets.NewString []) ∧
      ∀ requestInfo, (check requestInfo = true ↔ requestInfo.Verb = "watch") :=
  ⟨exampleConfig_mem,
    CreateAggregator_long_running (exampleLib none) 5
      (Event.mk (Call.ConfigComplete exampleConfig) none) exampleConfig_mem exampleConfig rfl⟩

/-- The run with `exampleLib none` reaches the constructor. -/
theorem exampleConstructor_mem :
    Event.mk (Call.NewWithDelegate 20 5) none ∈ (CreateAggregator (exampleLib none) 5).trace := by
  simp [CreateAggregator, RecommendedOptions.ApplyTo, exampleLib, exampleError]

theorem CreateAggregator_informer_factory_witness :
    Event.mk (Call.NewWithDelegate 20 5) none ∈ (CreateAggregator (exampleLib none) 5).trace ∧
    ∃ config,
      Event.mk (Call.ConfigComplete config) none ∈ (CreateAggregator (exampleLib none) 5).trace ∧
      20 = (exampleLib none).ConfigComplete config ∧ 5 = 5 ∧
      config.GenericConfig.SharedInformerFactory =
        some ((exampleLib none).NewSharedInformerFactory (exampleLib none).NewSimpleClientset
          (10 * time.Minute)) ∧
      10 * time.Minute = 600000000000 ∧
      config.ExtraConfig.ServiceResolver =
        (exampleLib none).NewClusterIPServiceResolver
          ((exampleLib none).ServicesLister config.GenericConfig.SharedInformerFactory) :=
  ⟨exampleConstructor_mem,
    CreateAggregator_informer_factory (exampleLib none) 5 (Event.mk (Call.NewWithDelegate 20 5) none)
      exampleConstructor_mem 20 5 rfl⟩

end apiserver
